import Mathlib

/-!
Shallow embedding of `aptos-move/e2e-tests/src/executor.rs` (`FakeExecutor`),
the deterministic dual-path test harness: ledger state, dual-path block
execution with cross-checking, trace recording, block progression, resource
reads and deterministic account generation.  External collaborators (the VM
engines, bcs serialization, key generation, the data store) are modelled at
their interface boundary as documented on each definition.
-/

namespace Executor

/-- Raw byte blobs stored in the ledger; a byte is modelled as a `Nat`. -/
abbrev Bytes := List Nat

/-- Account addresses.  Addresses produced by the deterministic key generator
are determined by the generator's seed and the index of the draw; other
addresses (such as the core-code address) are arbitrary values of this type. -/
structure AccountAddress where
  seed : List Nat
  index : Nat
deriving DecidableEq, Repr

/-- An access path: an address plus an opaque path component (the encoding of
a resource struct tag or a module id). -/
structure AccessPath where
  address : AccountAddress
  path : Nat
deriving DecidableEq, Repr

/-- State keys as used by the harness: it only ever builds
`StateKey::AccessPath` values. -/
inductive StateKey where
  | accessPath : AccessPath → StateKey
deriving DecidableEq, Repr

/-- `AccessPath::resource_access_path(ResourceKey::new(addr, tag))`. -/
def resource_access_path (addr : AccountAddress) (tag : Nat) : AccessPath :=
  { address := addr, path := tag }

/-- A single write-set operation: upsert or delete. -/
inductive WriteOp where
  | write : Bytes → WriteOp
  | delete : WriteOp
deriving DecidableEq, Repr

/-- An ordered sequence of (key, operation) pairs. -/
abbrev WriteSet := List (StateKey × WriteOp)

/-- Modelled from the spec: `FakeDataStore` (`data_store.rs` is not part of
src/), the in-memory mapping from state keys to byte blobs. -/
def FakeDataStore := StateKey → Option Bytes

/-- The empty data store: no slot was ever written. -/
def emptyDataStore : FakeDataStore := fun _ => none

/-- Apply one write-set operation to the store: `write` upserts, `delete`
removes. -/
def applyOp (st : FakeDataStore) (key : StateKey) (op : WriteOp) : FakeDataStore :=
  fun k =>
    if k = key then
      match op with
      | WriteOp.write b => some b
      | WriteOp.delete => none
    else st k

/-- Modelled from the spec: `FakeDataStore::add_write_set` applies every entry
in sequence order; the last write to a key wins. -/
def add_write_set_store (st : FakeDataStore) (ws : WriteSet) : FakeDataStore :=
  ws.foldl (fun acc kv => applyOp acc kv.fst kv.snd) st

/-- `StateView::get_state_value` on the fake data store: a point read.  The
fake store is infallible, so the `Result` layer of the Rust trait is elided
and only the `Option` remains. -/
def get_state_value (st : FakeDataStore) (k : StateKey) : Option Bytes := st k

/-- A contract event: key plus opaque payload. -/
structure ContractEvent where
  key : Nat
  event_data : Bytes
deriving DecidableEq, Repr

/-- Execution status inside a kept transaction. -/
inductive ExecutionStatus where
  | success
  | failure : Nat → ExecutionStatus
deriving DecidableEq, Repr

/-- Transaction status: kept (with a nested execution status), discarded, or
to be retried. -/
inductive TransactionStatus where
  | keep : ExecutionStatus → TransactionStatus
  | discard : Nat → TransactionStatus
  | retry
deriving DecidableEq, Repr

/-- The output of one executed transaction: write set, events, gas, status. -/
structure TransactionOutput where
  write_set : WriteSet
  events : List ContractEvent
  gas_used : Nat
  status : TransactionStatus
deriving DecidableEq, Repr

/-- A signed user transaction, opaque to the harness. -/
structure SignedTransaction where
  payload : Nat
deriving DecidableEq, Repr

/-- The synthetic block-boundary record built by `new_block_with_timestamp`. -/
structure BlockMetadata where
  id : Bytes
  epoch : Nat
  round : Nat
  previous_block_votes : List Bool
  proposer : Nat
  timestamp_usecs : Nat
deriving DecidableEq, Repr

/-- A transaction fed to the block executor. -/
inductive Transaction where
  | userTransaction : SignedTransaction → Transaction
  | blockMetadata : BlockMetadata → Transaction
deriving DecidableEq, Repr

/-- A VM-level failure status, opaque to the harness. -/
structure VMStatus where
  code : Nat
deriving DecidableEq, Repr

instance {ε α : Type} [DecidableEq ε] [DecidableEq α] : DecidableEq (Except ε α) :=
  fun a b =>
    match a, b with
    | Except.ok x, Except.ok y =>
      if h : x = y then isTrue (by rw [h])
      else isFalse (by intro hh; cases hh; exact h rfl)
    | Except.error x, Except.error y =>
      if h : x = y then isTrue (by rw [h])
      else isFalse (by intro hh; cases hh; exact h rfl)
    | Except.ok _, Except.error _ => isFalse (by intro hh; cases hh)
    | Except.error _, Except.ok _ => isFalse (by intro hh; cases hh)

/-- `static RNG_SEED: [u8; 32] = [9u8; 32];` -/
def RNG_SEED : List Nat := List.replicate 32 9

/-- Modelled from the spec: `KeyGen`, the external deterministic key
generator.  Its state is its seed plus the number of draws already made. -/
structure KeyGen where
  seed : List Nat
  counter : Nat
deriving DecidableEq, Repr

/-- `KeyGen::from_seed`. -/
def KeyGen.from_seed (s : List Nat) : KeyGen := { seed := s, counter := 0 }

/-- An account: its address (keys are determined by the same data). -/
structure Account where
  addr : AccountAddress
deriving DecidableEq, Repr

def Account.address (a : Account) : AccountAddress := a.addr

/-- Modelled from the spec: `Account::new_from_seed` draws deterministically
from the key generator and advances it. -/
def Account.new_from_seed (rng : KeyGen) : Account × KeyGen :=
  ({ addr := { seed := rng.seed, index := rng.counter } },
   { rng with counter := rng.counter + 1 })

/-- Account plus the balance and sequence number it is to be published with. -/
structure AccountData where
  account : Account
  balance : Nat
  sequence_number : Nat
deriving DecidableEq, Repr

/-- Modelled from the spec: `AccountData::new_from_seed`. -/
def AccountData.new_from_seed (rng : KeyGen) (balance seq_num : Nat) :
    AccountData × KeyGen :=
  match Account.new_from_seed rng with
  | (acc, rng1) =>
    ({ account := acc, balance := balance, sequence_number := seq_num }, rng1)

def AccountData.into_account (ad : AccountData) : Account := ad.account

/-- Struct tag of the account resource. -/
def accountResourceTag : Nat := 0

/-- Struct tag of the balance resource. -/
def balanceResourceTag : Nat := 1

/-- Struct tag of the transfer-events resource. -/
def transferEventsResourceTag : Nat := 2

/-- Modelled from the spec: `FakeDataStore::add_account_data` publishes the
account's resources under its address. -/
def add_account_data_store (st : FakeDataStore) (ad : AccountData) : FakeDataStore :=
  add_write_set_store st
    [(StateKey.accessPath (resource_access_path ad.account.address accountResourceTag),
      WriteOp.write [ad.sequence_number]),
     (StateKey.accessPath (resource_access_path ad.account.address balanceResourceTag),
      WriteOp.write [ad.balance])]

/-- One trace subdirectory: its files, each a name with contents.  File names
written by the recorder are the decimal numerals of sequence numbers; the
model identifies each such name with the `Nat` it denotes. -/
structure Dir where
  files : List (Nat × Bytes)
deriving DecidableEq, Repr

/-- A freshly created, empty subdirectory. -/
def emptyDir : Dir := { files := [] }

/-- Whether a file of the given (numeral) name exists in the directory. -/
def Dir.hasFile (d : Dir) (n : Nat) : Bool :=
  d.files.any (fun f => f.fst == n)

/-- The distinct fatal-abort sites of the harness. -/
inductive Panic where
  | traceFileExists
  | assertEqOutputs
  | vmStartupFailure
  | emptyOutputs
  | vmFailure : VMStatus → Panic
  | outputsSizeMismatch
  | txnFailed : ExecutionStatus → Panic
  | txnDiscarded : Nat → Panic
  | txnRetry
  | noValidatorSet
  | blockPrologueFailed
  | noPrologueOutput
  | eventIndexOutOfBounds
  | eventKeyMismatch
  | badNewBlockEvent
  | resourceNotFound
deriving DecidableEq, Repr

/-- `FakeExecutor::trace`: count the files already present to derive the next
sequence number, serialize (the serialized bytes are the argument), and write
a new file named by that number; `create_new` fails fatally if a file of that
name already exists. -/
def trace (d : Dir) (bytes : Bytes) : Except Panic (Dir × Nat) :=
  let seq := d.files.length
  if d.hasFile seq then Except.error Panic.traceFileExists
  else Except.ok ({ files := d.files ++ [(seq, bytes)] }, seq)

/-- Record a list of items in order, threading the directory; on a fatal
recording error the directory reached so far is returned with the panic. -/
def traceMany (d : Dir) (items : List Bytes) : Except (Dir × Panic) (Dir × List Nat) :=
  match items with
  | [] => Except.ok (d, [])
  | b :: rest =>
    match trace d b with
    | Except.error p => Except.error (d, p)
    | Except.ok (d1, seq) =>
      match traceMany d1 rest with
      | Except.error e => Except.error e
      | Except.ok (d2, seqs) => Except.ok (d2, seq :: seqs)

/-- `type TraceSeqMapping = (usize, Vec<usize>, Vec<usize>)`. -/
abbrev TraceSeqMapping := Nat × List Nat × List Nat

/-- The on-disk contents of one test's trace directory: the `name` file (as
the pair written as `test_name::version`), whether the `error` file exists,
and the four numbered subdirectories. -/
structure TraceFS where
  nameFile : Option (String × Nat)
  errorFile : Bool
  meta : Dir
  data : Dir
  input : Dir
  output : Dir
deriving DecidableEq, Repr

/-- External collaborators consumed by the harness: the sequential and
parallel execution engines, the keep-vm-status engine entry, hardware
parallelism, on-chain config fetches, and bcs serialization of the traced
item kinds. -/
structure VM where
  execute_block_seq : List Transaction → FakeDataStore → Except VMStatus (List TransactionOutput)
  execute_block_par : List Transaction → FakeDataStore → Nat → Except VMStatus (List TransactionOutput × Nat)
  execute_block_keep_vm_status : List Transaction → FakeDataStore → Except VMStatus (List (VMStatus × TransactionOutput))
  num_cpus : Nat
  fetch_validator_set : FakeDataStore → Option (List Nat)
  fetch_version : FakeDataStore → Option Nat
  decode_new_block_event : Bytes → Option Nat
  serialize_state : FakeDataStore → Bytes
  serialize_txn : Transaction → Bytes
  serialize_output : TransactionOutput → Bytes
  serialize_trace_map : TraceSeqMapping → Bytes

/-- The harness state: the `FakeExecutor` struct fields, with `trace_dir`
represented by the trace directory's current on-disk contents (present iff
tracing is enabled). -/
structure FakeExecutor where
  data_store : FakeDataStore
  block_time : Nat
  executed_output : Option String
  trace_fs : Option TraceFS
  rng : KeyGen

/-- Outcome of a harness call that may abort the test: either a value with
the resulting harness state, or a fatal panic with the harness state as it
was at the moment of the abort. -/
inductive PResult (α : Type) where
  | ok : FakeExecutor → α → PResult α
  | panic : FakeExecutor → Panic → PResult α

/-- The harness state carried by an outcome (final state, or the state at the
moment of a fatal abort). -/
def PResult.state {α : Type} : PResult α → FakeExecutor
  | PResult.ok s _ => s
  | PResult.panic s _ => s

/-- Whether the outcome is a fatal abort. -/
def PResult.isPanic {α : Type} : PResult α → Bool
  | PResult.ok _ _ => false
  | PResult.panic _ _ => true

/-- `FakeExecutor::no_genesis`. -/
def no_genesis : FakeExecutor :=
  { data_store := emptyDataStore, block_time := 0, executed_output := none,
    trace_fs := none, rng := KeyGen.from_seed RNG_SEED }

/-- `FakeExecutor::apply_write_set`. -/
def apply_write_set (ex : FakeExecutor) (ws : WriteSet) : FakeExecutor :=
  { ex with data_store := add_write_set_store ex.data_store ws }

/-- `FakeExecutor::from_genesis`: a fresh executor with the genesis write set
applied. -/
def from_genesis (ws : WriteSet) : FakeExecutor :=
  apply_write_set
    { data_store := emptyDataStore, block_time := 0, executed_output := none,
      trace_fs := none, rng := KeyGen.from_seed RNG_SEED } ws

/-- `FakeExecutor::add_module` (the underlying store insertion is external;
modelled as a write at the module's access path). -/
def add_module (ex : FakeExecutor) (module_id : Nat) (blob : Bytes) : FakeExecutor :=
  { ex with
    data_store :=
      applyOp ex.data_store
        (StateKey.accessPath { address := { seed := [], index := 0 }, path := module_id })
        (WriteOp.write blob) }

/-- `FakeExecutor::stdlib_only_genesis`: start from `no_genesis` and insert
each framework module individually. -/
def stdlib_only_genesis (modules : List (Nat × Bytes)) : FakeExecutor :=
  modules.foldl (fun g m => add_module g m.fst m.snd) no_genesis

/-- `FakeExecutor::custom_genesis`: the externally generated genesis write
set (the output of `vm_genesis::generate_test_genesis`) applied via
`from_genesis`. -/
def custom_genesis (generated : WriteSet) : FakeExecutor :=
  from_genesis generated

/-- The genesis construction modes of the harness, each carrying the data its
external collaborator would supply. -/
inductive GenesisMode where
  | fromGenesis : WriteSet → GenesisMode
  | noGenesis
  | stdlibOnly : List (Nat × Bytes) → GenesisMode
  | customGenesis : WriteSet → GenesisMode

/-- Construct an executor in the given genesis mode. -/
def construct : GenesisMode → FakeExecutor
  | GenesisMode.fromGenesis ws => from_genesis ws
  | GenesisMode.noGenesis => no_genesis
  | GenesisMode.stdlibOnly mods => stdlib_only_genesis mods
  | GenesisMode.customGenesis ws => custom_genesis ws

/-- `FakeExecutor::create_raw_account`. -/
def create_raw_account (ex : FakeExecutor) : Account × FakeExecutor :=
  match Account.new_from_seed ex.rng with
  | (a, rng1) => (a, { ex with rng := rng1 })

/-- `FakeExecutor::create_raw_account_data`. -/
def create_raw_account_data (ex : FakeExecutor) (balance seq_num : Nat) :
    AccountData × FakeExecutor :=
  match AccountData.new_from_seed ex.rng balance seq_num with
  | (ad, rng1) => (ad, { ex with rng := rng1 })

/-- `FakeExecutor::add_account_data`. -/
def add_account_data (ex : FakeExecutor) (ad : AccountData) : FakeExecutor :=
  { ex with data_store := add_account_data_store ex.data_store ad }

/-- `FakeExecutor::create_accounts`: create `size` accounts with the given
balance and sequence number, publishing each to the data store. -/
def create_accounts (ex : FakeExecutor) (size balance seq_num : Nat) :
    List Account × FakeExecutor :=
  match size with
  | 0 => ([], ex)
  | n + 1 =>
    match create_raw_account_data ex balance seq_num with
    | (ad, ex1) =>
      match create_accounts (add_account_data ex1 ad) n balance seq_num with
      | (rest, ex2) => (ad.into_account :: rest, ex2)

/-- Iterate `create_raw_account` n times, collecting the produced accounts. -/
def create_raw_accounts (ex : FakeExecutor) (n : Nat) : List Account × FakeExecutor :=
  match n with
  | 0 => ([], ex)
  | k + 1 =>
    match create_raw_account ex with
    | (a, ex1) =>
      match create_raw_accounts ex1 k with
      | (rest, ex2) => (a :: rest, ex2)

/-- The raw-account stream as a function of the generator state alone. -/
def pureRawAccounts (rng : KeyGen) : Nat → List Account
  | 0 => []
  | k + 1 =>
    match Account.new_from_seed rng with
    | (a, rng1) => a :: pureRawAccounts rng1 k

/-- `FakeExecutor::read_from_access_path`. -/
def read_from_access_path (ex : FakeExecutor) (path : AccessPath) : Option Bytes :=
  get_state_value ex.data_store (StateKey.accessPath path)

/-- `FakeExecutor::read_resource::<T>`: a missing slot is a fatal abort; a
present blob is deserialized (deserialization failure yields `none`). -/
def read_resource {α : Type} (ex : FakeExecutor) (tag : Nat)
    (decode : Bytes → Option α) (addr : AccountAddress) : Except Panic (Option α) :=
  match get_state_value ex.data_store
      (StateKey.accessPath (resource_access_path addr tag)) with
  | none => Except.error Panic.resourceNotFound
  | some blob => Except.ok (decode blob)

/-- The account resource, opaque to the harness. -/
structure AccountResource where
  raw : Bytes
deriving DecidableEq, Repr

/-- Modelled from the spec: bcs deserialization of an account-resource blob. -/
def decodeAccountResource (b : Bytes) : Option AccountResource := some { raw := b }

/-- The balance resource, opaque to the harness. -/
structure BalanceResource where
  raw : Bytes
deriving DecidableEq, Repr

/-- Modelled from the spec: bcs deserialization of a balance-resource blob. -/
def decodeBalanceResource (b : Bytes) : Option BalanceResource := some { raw := b }

/-- `FakeExecutor::read_account_resource_at_address`. -/
def read_account_resource_at_address (ex : FakeExecutor) (addr : AccountAddress) :
    Except Panic (Option AccountResource) :=
  read_resource ex accountResourceTag decodeAccountResource addr

/-- `FakeExecutor::read_account_resource`. -/
def read_account_resource (ex : FakeExecutor) (account : Account) :
    Except Panic (Option AccountResource) :=
  read_account_resource_at_address ex account.address

/-- `FakeExecutor::read_balance_resource_at_address`. -/
def read_balance_resource_at_address (ex : FakeExecutor) (addr : AccountAddress) :
    Except Panic (Option BalanceResource) :=
  read_resource ex balanceResourceTag decodeBalanceResource addr

/-- `FakeExecutor::read_balance_resource`. -/
def read_balance_resource (ex : FakeExecutor) (account : Account) :
    Except Panic (Option BalanceResource) :=
  read_balance_resource_at_address ex account.address

/-- Replace every colon in the test name with an underscore. -/
def sanitizeName (s : String) : String :=
  s.map (fun c => if c = ':' then '_' else c)

/-- The freshly created trace directory: the `name` file holding
`test_name::version` plus the four empty subdirectories. -/
def initialTraceFS (test_name : String) (version : Nat) : TraceFS :=
  { nameFile := some (test_name, version), errorFile := false,
    meta := emptyDir, data := emptyDir, input := emptyDir, output := emptyDir }

/-- `FakeExecutor::set_golden_file`: assign the golden-output name; when the
`TRACE` environment variable is set, remove any pre-existing trace
subdirectory for this test and create it fresh.  `trace_root` lists the
entries currently existing under the trace root; the updated list is
returned alongside the executor. -/
def set_golden_file (vm : VM) (env_trace_dir : Option String)
    (trace_root : List String) (ex : FakeExecutor) (test_name : String) :
    FakeExecutor × List String :=
  let file_name := sanitizeName test_name
  let ex1 := { ex with executed_output := some file_name }
  match env_trace_dir with
  | none => (ex1, trace_root)
  | some _ =>
    let aptos_version := (vm.fetch_version ex1.data_store).getD 0
    let root1 := if file_name ∈ trace_root then trace_root.erase file_name else trace_root
    ({ ex1 with trace_fs := some (initialTraceFS test_name aptos_version) },
     root1 ++ [file_name])

/-- `FakeExecutor::execute_transaction_block_parallel`: run the parallel
engine with the hardware worker count; propagate its failure, else keep the
first component of its return pair. -/
def execute_transaction_block_parallel (vm : VM) (ex : FakeExecutor)
    (txn_block : List Transaction) : Except VMStatus (List TransactionOutput) :=
  match vm.execute_block_par txn_block ex.data_store vm.num_cpus with
  | Except.error e => Except.error e
  | Except.ok result => Except.ok result.fst

/-- The pre-execution tracing of `execute_transaction_block`: when tracing is
enabled, record the state snapshot into `data` and each input transaction
into `input`, in order, building the trace-sequence mapping. -/
def preTrace (vm : VM) (ex : FakeExecutor) (txn_block : List Transaction) :
    Except (FakeExecutor × Panic) (FakeExecutor × TraceSeqMapping) :=
  match ex.trace_fs with
  | none => Except.ok (ex, (0, [], []))
  | some tfs =>
    match trace tfs.data (vm.serialize_state ex.data_store) with
    | Except.error p => Except.error (ex, p)
    | Except.ok (d1, snapSeq) =>
      match traceMany tfs.input (txn_block.map vm.serialize_txn) with
      | Except.error (i1, p) =>
        Except.error ({ ex with trace_fs := some { tfs with data := d1, input := i1 } }, p)
      | Except.ok (i1, inSeqs) =>
        Except.ok ({ ex with trace_fs := some { tfs with data := d1, input := i1 } },
          (snapSeq, inSeqs, []))

/-- The post-execution tracing of `execute_transaction_block`: when tracing
is enabled, record each output into `output` (or, on a VM failure, create the
`error` file), then record the trace-sequence mapping into `meta`. -/
def postTrace (vm : VM) (ex : FakeExecutor) (tm : TraceSeqMapping)
    (output : Except VMStatus (List TransactionOutput)) :
    Except (FakeExecutor × Panic) FakeExecutor :=
  match ex.trace_fs with
  | none => Except.ok ex
  | some tfs =>
    match output with
    | Except.ok results =>
      match traceMany tfs.output (results.map vm.serialize_output) with
      | Except.error (o1, p) =>
        Except.error ({ ex with trace_fs := some { tfs with output := o1 } }, p)
      | Except.ok (o1, outSeqs) =>
        match trace tfs.meta (vm.serialize_trace_map (tm.fst, tm.snd.fst, outSeqs)) with
        | Except.error p =>
          Except.error ({ ex with trace_fs := some { tfs with output := o1 } }, p)
        | Except.ok (m1, _) =>
          Except.ok { ex with trace_fs := some { tfs with output := o1, meta := m1 } }
    | Except.error _ =>
      if tfs.errorFile then Except.error (ex, Panic.traceFileExists)
      else
        match trace tfs.meta (vm.serialize_trace_map tm) with
        | Except.error p =>
          Except.error ({ ex with trace_fs := some { tfs with errorFile := true } }, p)
        | Except.ok (m1, _) =>
          Except.ok { ex with trace_fs := some { tfs with errorFile := true, meta := m1 } }

/-- `FakeExecutor::execute_transaction_block`: trace the inputs, run the
sequential engine and the parallel engine over the same block against the
same data store, `assert_eq!` the two whole results, trace the outputs, and
return the sequential result. -/
def execute_transaction_block (vm : VM) (ex : FakeExecutor)
    (txn_block : List Transaction) :
    PResult (Except VMStatus (List TransactionOutput)) :=
  match preTrace vm ex txn_block with
  | Except.error ep => PResult.panic ep.fst ep.snd
  | Except.ok (ex1, tm) =>
    if vm.execute_block_seq txn_block ex1.data_store =
        execute_transaction_block_parallel vm ex1 txn_block then
      match postTrace vm ex1 tm (vm.execute_block_seq txn_block ex1.data_store) with
      | Except.error ep => PResult.panic ep.fst ep.snd
      | Except.ok ex2 =>
        PResult.ok ex2 (vm.execute_block_seq txn_block ex1.data_store)
    else PResult.panic ex1 Panic.assertEqOutputs

/-- `FakeExecutor::execute_block`: wrap each signed transaction as a user
transaction and execute the block. -/
def execute_block (vm : VM) (ex : FakeExecutor) (txn_block : List SignedTransaction) :
    PResult (Except VMStatus (List TransactionOutput)) :=
  execute_transaction_block vm ex (txn_block.map Transaction.userTransaction)

/-- `FakeExecutor::execute_block_and_keep_vm_status`: delegate directly to
the sequential engine's keep-vm-status entry point. -/
def execute_block_and_keep_vm_status (vm : VM) (ex : FakeExecutor)
    (txn_block : List SignedTransaction) :
    Except VMStatus (List (VMStatus × TransactionOutput)) :=
  vm.execute_block_keep_vm_status (txn_block.map Transaction.userTransaction)
    ex.data_store

/-- `FakeExecutor::execute_transaction`: execute a one-element block; a VM
failure is fatal, then `pop().expect(..)`: fatal when there is no output,
else the last output. -/
def execute_transaction (vm : VM) (ex : FakeExecutor) (txn : SignedTransaction) :
    PResult TransactionOutput :=
  match execute_block vm ex [txn] with
  | PResult.panic s p => PResult.panic s p
  | PResult.ok ex1 (Except.error _) => PResult.panic ex1 Panic.vmStartupFailure
  | PResult.ok ex1 (Except.ok outputs) =>
    match outputs.getLast? with
    | none => PResult.panic ex1 Panic.emptyOutputs
    | some output => PResult.ok ex1 output

/-- `FakeExecutor::execute_and_apply`: execute a one-element block; a VM
failure is fatal; exactly one output is asserted; on a kept status the write
set is applied and then success is asserted; discard and retry are fatal. -/
def execute_and_apply (vm : VM) (ex : FakeExecutor) (transaction : SignedTransaction) :
    PResult TransactionOutput :=
  match execute_block vm ex [transaction] with
  | PResult.panic s p => PResult.panic s p
  | PResult.ok ex1 (Except.error e) => PResult.panic ex1 (Panic.vmFailure e)
  | PResult.ok ex1 (Except.ok outputs) =>
    match outputs with
    | [output] =>
      match output.status with
      | TransactionStatus.keep st =>
        if st = ExecutionStatus.success then
          PResult.ok (apply_write_set ex1 output.write_set) output
        else PResult.panic (apply_write_set ex1 output.write_set) (Panic.txnFailed st)
      | TransactionStatus.discard r => PResult.panic ex1 (Panic.txnDiscarded r)
      | TransactionStatus.retry => PResult.panic ex1 Panic.txnRetry
    | _ => PResult.panic ex1 Panic.outputsSizeMismatch

/-- `HashValue::zero()`. -/
def hashValueZero : Bytes := List.replicate 32 0

/-- Modelled from the spec: the well-known block-start event key. -/
def new_block_event_key : Nat := 0

/-- `FakeExecutor::new_block_with_timestamp`: read the validator set (fatal
if absent), set the block time to the target timestamp, execute the
synthetic block-metadata transaction as a one-element block, check the
block-start event, and apply the resulting write set. -/
def new_block_with_timestamp (vm : VM) (ex : FakeExecutor) (time_stamp : Nat) :
    PResult Unit :=
  match vm.fetch_validator_set ex.data_store with
  | none => PResult.panic ex Panic.noValidatorSet
  | some validator_set =>
    match execute_transaction_block vm { ex with block_time := time_stamp }
        [Transaction.blockMetadata
          { id := hashValueZero, epoch := 0, round := 0,
            previous_block_votes := false :: validator_set.map (fun _ => false),
            proposer := 1, timestamp_usecs := time_stamp }] with
    | PResult.panic s p => PResult.panic s p
    | PResult.ok ex2 (Except.error _) => PResult.panic ex2 Panic.blockPrologueFailed
    | PResult.ok ex2 (Except.ok outputs) =>
      match outputs.getLast? with
      | none => PResult.panic ex2 Panic.noPrologueOutput
      | some output =>
        match output.events.head? with
        | none => PResult.panic ex2 Panic.eventIndexOutOfBounds
        | some event =>
          if event.key = new_block_event_key then
            match vm.decode_new_block_event event.event_data with
            | some _ => PResult.ok (apply_write_set ex2 output.write_set) ()
            | none => PResult.panic ex2 Panic.badNewBlockEvent
          else PResult.panic ex2 Panic.eventKeyMismatch

/-- `FakeExecutor::new_block`: advance to the current block time plus one. -/
def new_block (vm : VM) (ex : FakeExecutor) : PResult Unit :=
  new_block_with_timestamp vm ex (ex.block_time + 1)

/-- `FakeExecutor::set_block_time`. -/
def set_block_time (ex : FakeExecutor) (new_block_time : Nat) : FakeExecutor :=
  { ex with block_time := new_block_time }

/-- `FakeExecutor::get_block_time`. -/
def get_block_time (ex : FakeExecutor) : Nat := ex.block_time

/-- Agreement of two harness states on every `FakeExecutor` field other than
the trace directory contents. -/
def sameCore (a b : FakeExecutor) : Prop :=
  a.data_store = b.data_store ∧ a.block_time = b.block_time ∧
  a.rng = b.rng ∧ a.executed_output = b.executed_output

/-- The published-account stream of `create_accounts` as a function of the
generator state alone. -/
def pureAccounts (rng : KeyGen) (balance seq_num : Nat) : Nat → List Account
  | 0 => []
  | k + 1 =>
    match AccountData.new_from_seed rng balance seq_num with
    | (ad, rng1) => ad.into_account :: pureAccounts rng1 balance seq_num k

/-- A harness state with no genesis applied, used as a concrete evaluation
point. -/
def exW : FakeExecutor := no_genesis

/-- A trivial collaborator bundle used as the base of concrete instances. -/
def vmBase : VM :=
  { execute_block_seq := fun _ _ => Except.ok []
    execute_block_par := fun _ _ _ => Except.ok ([], 0)
    execute_block_keep_vm_status := fun _ _ => Except.ok []
    num_cpus := 1
    fetch_validator_set := fun _ => none
    fetch_version := fun _ => none
    decode_new_block_event := fun _ => none
    serialize_state := fun _ => []
    serialize_txn := fun _ => []
    serialize_output := fun _ => []
    serialize_trace_map := fun _ => [] }

/-- A concrete signed transaction. -/
def txnW : SignedTransaction := { payload := 0 }

/-- A concrete successful transaction output. -/
def outW : TransactionOutput :=
  { write_set := [], events := [], gas_used := 0,
    status := TransactionStatus.keep ExecutionStatus.success }

/-- A concrete output distinct from `oB`. -/
def oA : TransactionOutput := { outW with gas_used := 1 }

/-- A concrete output distinct from `oA`. -/
def oB : TransactionOutput := { outW with gas_used := 2 }

/-- Collaborators whose sequential and parallel engines disagree. -/
def vmMismatch : VM :=
  { vmBase with execute_block_par := fun _ _ _ => Except.error { code := 7 } }

/-- Collaborators whose sequential and parallel engines agree on one
successful output. -/
def vmMatch : VM :=
  { vmBase with
    execute_block_seq := fun _ _ => Except.ok [outW]
    execute_block_par := fun _ _ _ => Except.ok ([outW], 0) }

/-- Collaborators whose keep-vm-status engine succeeds while the parallel
engine fails, so the two block-execution paths diverge. -/
def vmKeepOnly : VM :=
  { vmBase with
    execute_block_seq := fun _ _ => Except.ok []
    execute_block_par := fun _ _ _ => Except.error { code := 7 } }

/-- Collaborators whose engines agree on two outputs for a one-element
block. -/
def vmTwoOutputs : VM :=
  { vmBase with
    execute_block_seq := fun _ _ => Except.ok [oA, oB]
    execute_block_par := fun _ _ _ => Except.ok ([oA, oB], 0) }

/-- Collaborators whose engines both report a VM-level failure. -/
def vmErr : VM :=
  { vmBase with
    execute_block_seq := fun _ _ => Except.error { code := 3 }
    execute_block_par := fun _ _ _ => Except.error { code := 3 } }

/-- A concrete state key. -/
def k0 : StateKey :=
  StateKey.accessPath { address := { seed := [], index := 0 }, path := 5 }

/-- An output kept with a non-success status and a nonempty write set. -/
def oFail : TransactionOutput :=
  { write_set := [(k0, WriteOp.write [1])], events := [], gas_used := 0,
    status := TransactionStatus.keep (ExecutionStatus.failure 7) }

/-- Collaborators whose engines agree on one kept-but-failed output. -/
def vmKeepFail : VM :=
  { vmBase with
    execute_block_seq := fun _ _ => Except.ok [oFail]
    execute_block_par := fun _ _ _ => Except.ok ([oFail], 0) }

/-- A block-prologue output carrying the block-start event. -/
def obm : TransactionOutput :=
  { write_set := [],
    events := [{ key := new_block_event_key, event_data := [] }],
    gas_used := 0, status := TransactionStatus.keep ExecutionStatus.success }

/-- Collaborators under which block progression succeeds. -/
def vmBlock : VM :=
  { vmBase with
    execute_block_seq := fun _ _ => Except.ok [obm]
    execute_block_par := fun _ _ _ => Except.ok ([obm], 0)
    fetch_validator_set := fun _ => some []
    decode_new_block_event := fun _ => some 0 }

/-- A harness state whose block time is 5. -/
def ex5 : FakeExecutor := { exW with block_time := 5 }

/-- A concrete account address. -/
def addr0 : AccountAddress := { seed := [], index := 0 }

/-- A concrete test name. -/
def nmW : String := String.mk ['t']

/-- A concrete trace-root location. -/
def envW : String := String.mk ['r']

theorem sameCore_refl (a : FakeExecutor) : sameCore a a := ⟨rfl, rfl, rfl, rfl⟩

theorem sameCore_trans {a b c : FakeExecutor} (h1 : sameCore a b) (h2 : sameCore b c) :
    sameCore a c :=
  ⟨h1.1.trans h2.1, h1.2.1.trans h2.2.1, h1.2.2.1.trans h2.2.2.1,
   h1.2.2.2.trans h2.2.2.2⟩

theorem preTrace_ok_core {vm : VM} {ex : FakeExecutor} {t : List Transaction}
    {ex1 : FakeExecutor} {tm : TraceSeqMapping}
    (h : preTrace vm ex t = Except.ok (ex1, tm)) : sameCore ex1 ex := by
  unfold preTrace at h
  split at h
  · simp only [Except.ok.injEq, Prod.mk.injEq] at h
    obtain ⟨h1, -⟩ := h
    subst h1
    exact sameCore_refl ex
  · split at h
    · simp at h
    · split at h
      · simp at h
      · simp only [Except.ok.injEq, Prod.mk.injEq] at h
        obtain ⟨h1, -⟩ := h
        subst h1
        exact ⟨rfl, rfl, rfl, rfl⟩

theorem preTrace_err_core {vm : VM} {ex : FakeExecutor} {t : List Transaction}
    {ep : FakeExecutor × Panic}
    (h : preTrace vm ex t = Except.error ep) : sameCore ep.fst ex := by
  unfold preTrace at h
  split at h
  · simp at h
  · split at h
    · simp only [Except.error.injEq] at h
      subst h
      exact sameCore_refl ex
    · split at h
      · simp only [Except.error.injEq] at h
        subst h
        exact ⟨rfl, rfl, rfl, rfl⟩
      · simp at h

theorem postTrace_ok_core {vm : VM} {ex : FakeExecutor} {tm : TraceSeqMapping}
    {output : Except VMStatus (List TransactionOutput)} {ex1 : FakeExecutor}
    (h : postTrace vm ex tm output = Except.ok ex1) : sameCore ex1 ex := by
  unfold postTrace at h
  split at h
  · simp only [Except.ok.injEq] at h
    subst h
    exact sameCore_refl ex
  · split at h
    · split at h
      · simp at h
      · split at h
        · simp at h
        · simp only [Except.ok.injEq] at h
          subst h
          exact ⟨rfl, rfl, rfl, rfl⟩
    · split at h
      · simp at h
      · split at h
        · simp at h
        · simp only [Except.ok.injEq] at h
          subst h
          exact ⟨rfl, rfl, rfl, rfl⟩

theorem postTrace_err_core {vm : VM} {ex : FakeExecutor} {tm : TraceSeqMapping}
    {output : Except VMStatus (List TransactionOutput)} {ep : FakeExecutor × Panic}
    (h : postTrace vm ex tm output = Except.error ep) : sameCore ep.fst ex := by
  unfold postTrace at h
  split at h
  · simp at h
  · split at h
    · split at h
      · simp only [Except.error.injEq] at h
        subst h
        exact ⟨rfl, rfl, rfl, rfl⟩
      · split at h
        · simp only [Except.error.injEq] at h
          subst h
          exact ⟨rfl, rfl, rfl, rfl⟩
        · simp at h
    · split at h
      · simp only [Except.error.injEq] at h
        subst h
        exact sameCore_refl ex
      · split at h
        · simp only [Except.error.injEq] at h
          subst h
          exact ⟨rfl, rfl, rfl, rfl⟩
        · simp at h

theorem etbp_congr (vm : VM) {a b : FakeExecutor} (h : a.data_store = b.data_store)
    (t : List Transaction) :
    execute_transaction_block_parallel vm a t =
      execute_transaction_block_parallel vm b t := by
  unfold execute_transaction_block_parallel
  rw [h]

theorem etb_core (vm : VM) (ex : FakeExecutor) (t : List Transaction) :
    sameCore (execute_transaction_block vm ex t).state ex := by
  unfold execute_transaction_block
  split
  · next ep hpre =>
    simpa only [PResult.state] using preTrace_err_core hpre
  · next ex1 tm hpre =>
    have hc := preTrace_ok_core hpre
    split
    · split
      · next ep hpost =>
        simpa only [PResult.state] using sameCore_trans (postTrace_err_core hpost) hc
      · next ex2 hpost =>
        simpa only [PResult.state] using sameCore_trans (postTrace_ok_core hpost) hc
    · simpa only [PResult.state] using hc

theorem etb_ok_core {vm : VM} {ex : FakeExecutor} {t : List Transaction}
    {ex2 : FakeExecutor} {r : Except VMStatus (List TransactionOutput)}
    (h : execute_transaction_block vm ex t = PResult.ok ex2 r) : sameCore ex2 ex := by
  have := etb_core vm ex t
  rw [h] at this
  simpa only [PResult.state] using this

theorem etb_ok_eq {vm : VM} {ex : FakeExecutor} {t : List Transaction}
    {ex2 : FakeExecutor} {r : Except VMStatus (List TransactionOutput)}
    (h : execute_transaction_block vm ex t = PResult.ok ex2 r) :
    r = vm.execute_block_seq t ex.data_store ∧
    r = execute_transaction_block_parallel vm ex t := by
  unfold execute_transaction_block at h
  split at h
  · simp at h
  · next ex1 tm hpre =>
    have hc := preTrace_ok_core hpre
    split at h
    · next hif =>
      split at h
      · simp at h
      · next ex3 hpost =>
        simp only [PResult.ok.injEq] at h
        obtain ⟨-, hr⟩ := h
        constructor
        · rw [← hr, hc.1]
        · rw [← hr, hif]
          exact etbp_congr vm hc.1 t
    · simp at h

theorem etb_mismatch_panics {vm : VM} {ex : FakeExecutor} {t : List Transaction}
    (h : vm.execute_block_seq t ex.data_store ≠
      execute_transaction_block_parallel vm ex t) :
    (execute_transaction_block vm ex t).isPanic = true := by
  unfold execute_transaction_block
  split
  · rfl
  · next ex1 tm hpre =>
    have hc := preTrace_ok_core hpre
    split
    · next hif =>
      exfalso
      apply h
      rw [← hc.1, hif]
      exact etbp_congr vm hc.1 t
    · rfl

theorem hasFile_false_of_range {d : Dir}
    (hnames : d.files.map Prod.fst = List.range d.files.length)
    {m : Nat} (hm : d.files.length ≤ m) : d.hasFile m = false := by
  unfold Dir.hasFile
  cases hany : d.files.any (fun f => f.fst == m) with
  | false => rfl
  | true =>
    exfalso
    rw [List.any_eq_true] at hany
    obtain ⟨x, hx, hxm⟩ := hany
    have hfst : x.fst = m := by simpa using hxm
    have hmem : m ∈ d.files.map Prod.fst := List.mem_map.mpr ⟨x, hx, hfst⟩
    rw [hnames] at hmem
    have := List.mem_range.mp hmem
    omega

theorem trace_ok_of_range {d : Dir} (b : Bytes)
    (hnames : d.files.map Prod.fst = List.range d.files.length) :
    trace d b =
      Except.ok ({ files := d.files ++ [(d.files.length, b)] }, d.files.length) := by
  have hfree := hasFile_false_of_range hnames (le_refl d.files.length)
  simp [trace, hfree]

theorem traceMany_from (items : List Bytes) (d : Dir)
    (hnames : d.files.map Prod.fst = List.range d.files.length) :
    traceMany d items =
      Except.ok
        ({ files := d.files ++ (List.range' d.files.length items.length).zip items },
         List.range' d.files.length items.length) := by
  induction items generalizing d with
  | nil => simp [traceMany, List.range']
  | cons b rest ih =>
    have hn1 : ({ files := d.files ++ [(d.files.length, b)] } : Dir).files.map Prod.fst =
        List.range ({ files := d.files ++ [(d.files.length, b)] } : Dir).files.length := by
      simp only [List.map_append, hnames, List.length_append, List.length_singleton]
      rw [List.range_succ]
      rfl
    have hrec := ih { files := d.files ++ [(d.files.length, b)] } hn1
    simp only [traceMany, trace_ok_of_range b hnames, hrec, List.length_cons,
      List.length_append, List.length_singleton, List.range'_succ, List.zip_cons_cons,
      Except.ok.injEq, Prod.mk.injEq]
    constructor
    · simp [List.append_assoc]
    · rfl

theorem foldl_add_module_rng (mods : List (Nat × Bytes)) (g : FakeExecutor) :
    (mods.foldl (fun g m => add_module g m.fst m.snd) g).rng = g.rng := by
  induction mods generalizing g with
  | nil => rfl
  | cons m rest ih => simpa using ih (add_module g m.fst m.snd)

theorem construct_rng (m : GenesisMode) :
    (construct m).rng = KeyGen.from_seed RNG_SEED := by
  cases m with
  | fromGenesis ws => rfl
  | noGenesis => rfl
  | stdlibOnly mods =>
    show (stdlib_only_genesis mods).rng = _
    unfold stdlib_only_genesis
    rw [foldl_add_module_rng]
    rfl
  | customGenesis ws => rfl

theorem create_raw_accounts_pure (n : Nat) (ex : FakeExecutor) :
    (create_raw_accounts ex n).fst = pureRawAccounts ex.rng n := by
  induction n generalizing ex with
  | zero => rfl
  | succ k ih =>
    simp only [create_raw_accounts, create_raw_account, Account.new_from_seed,
      pureRawAccounts]
    rw [ih]

theorem create_accounts_pure (n : Nat) (balance seq_num : Nat) (ex : FakeExecutor) :
    (create_accounts ex n balance seq_num).fst = pureAccounts ex.rng balance seq_num n := by
  induction n generalizing ex with
  | zero => rfl
  | succ k ih =>
    simp only [create_accounts, create_raw_account_data, AccountData.new_from_seed,
      Account.new_from_seed, pureAccounts]
    rw [ih]
    simp [add_account_data]

/-- Claim C1: for every block, `execute_transaction_block` runs the
sequential and the concurrent execution paths over the same input against
the same unmodified ledger state, asserts the two whole results structurally
equal (including the error case), fails fatally on any mismatch, and returns
the sequential path's result (success or propagated VM failure). -/
theorem claim_C1_dual_path (vm : VM) (ex : FakeExecutor) (txns : List Transaction) :
    (vm.execute_block_seq txns ex.data_store ≠
        execute_transaction_block_parallel vm ex txns →
      (execute_transaction_block vm ex txns).isPanic = true)
    ∧ (∀ ex1 r, execute_transaction_block vm ex txns = PResult.ok ex1 r →
        r = vm.execute_block_seq txns ex.data_store ∧
        r = execute_transaction_block_parallel vm ex txns) :=
  ⟨fun h => etb_mismatch_panics h, fun _ _ h => etb_ok_eq h⟩

theorem claim_C1_dual_path_witness :
    (execute_transaction_block vmMismatch exW [Transaction.userTransaction txnW]).isPanic
        = true
    ∧ (Except.ok [outW] =
        vmMatch.execute_block_seq [Transaction.userTransaction txnW] exW.data_store ∧
       Except.ok [outW] =
        execute_transaction_block_parallel vmMatch exW [Transaction.userTransaction txnW]) :=
  ⟨(claim_C1_dual_path vmMismatch exW [Transaction.userTransaction txnW]).1 (by decide),
   (claim_C1_dual_path vmMatch exW [Transaction.userTransaction txnW]).2 exW
     (Except.ok [outW]) rfl⟩

/-- Claim C2 counterexample: under collaborators whose engines agree on a
single output kept with a non-success status and a nonempty write set,
`execute_and_apply` fails fatally, yet at the moment of the fatal failure the
ledger state has already been mutated by the output's write set — refuting
the claim that in fatal cases the ledger state is left unchanged. -/
theorem claim_C2_counterexample :
    (execute_and_apply vmKeepFail exW txnW).isPanic = true ∧
    (execute_and_apply vmKeepFail exW txnW).state.data_store k0 = some [1] ∧
    exW.data_store k0 = none :=
  ⟨rfl, rfl, rfl⟩

/-- Claim C2 (amended): `execute_and_apply` executes its transaction as a
one-element block; for a `Keep` status it applies the resulting write set to
the ledger state and then asserts success, so a `Keep(non-Success)` outcome
fails fatally with the write set already applied; `Discard` and `Retry` fail
fatally without applying any write set. -/
theorem claim_C2_amended (vm : VM) (ex ex1 : FakeExecutor) (txn : SignedTransaction)
    (o : TransactionOutput)
    (h : execute_block vm ex [txn] = PResult.ok ex1 (Except.ok [o])) :
    (∀ st, o.status = TransactionStatus.keep st →
      (st = ExecutionStatus.success →
        execute_and_apply vm ex txn = PResult.ok (apply_write_set ex1 o.write_set) o)
      ∧ (st ≠ ExecutionStatus.success →
        execute_and_apply vm ex txn =
          PResult.panic (apply_write_set ex1 o.write_set) (Panic.txnFailed st)))
    ∧ (∀ rsn, o.status = TransactionStatus.discard rsn →
        execute_and_apply vm ex txn = PResult.panic ex1 (Panic.txnDiscarded rsn))
    ∧ (o.status = TransactionStatus.retry →
        execute_and_apply vm ex txn = PResult.panic ex1 Panic.txnRetry) := by
  refine ⟨?_, ?_, ?_⟩
  · intro st hst
    constructor
    · intro hs
      subst hs
      simp [execute_and_apply, h, hst]
    · intro hns
      simp [execute_and_apply, h, hst, hns]
  · intro rsn hst
    simp [execute_and_apply, h, hst]
  · intro hst
    simp [execute_and_apply, h, hst]

theorem claim_C2_amended_witness :
    execute_and_apply vmMatch exW txnW =
      PResult.ok (apply_write_set exW outW.write_set) outW :=
  ((claim_C2_amended vmMatch exW exW txnW outW rfl).1 ExecutionStatus.success rfl).1 rfl

/-- Claim C3 counterexample: with block time 5, a successful
`new_block_with_timestamp 3` completes without any failure and leaves the
harness's block time at 3, strictly below its previous value — refuting the
claim that block progression never decreases the block time. -/
theorem claim_C3_counterexample :
    (new_block_with_timestamp vmBlock ex5 3).isPanic = false ∧
    (new_block_with_timestamp vmBlock ex5 3).state.block_time = 3 ∧
    ex5.block_time = 5 :=
  ⟨rfl, rfl, rfl⟩

/-- Claim C3 (amended): `new_block_with_timestamp t` sets the block time to
exactly `t` (which may be below the previous block time — monotonicity is
not enforced), and the zero-argument `new_block` advances the block time to
exactly the previous block time plus one. -/
theorem claim_C3_amended (vm : VM) (ex : FakeExecutor) (t : Nat) :
    (∀ ex1 u, new_block_with_timestamp vm ex t = PResult.ok ex1 u →
      ex1.block_time = t)
    ∧ new_block vm ex = new_block_with_timestamp vm ex (ex.block_time + 1)
    ∧ (∀ ex1 u, new_block vm ex = PResult.ok ex1 u →
        ex1.block_time = ex.block_time + 1) := by
  have key : ∀ (s : Nat) (ex1 : FakeExecutor) (u : Unit),
      new_block_with_timestamp vm ex s = PResult.ok ex1 u → ex1.block_time = s := by
    intro s ex1 u h
    unfold new_block_with_timestamp at h
    split at h
    · simp at h
    · split at h
      · simp at h
      · simp at h
      · next ex2 outputs hetb =>
        have hbt : ex2.block_time = s := (etb_ok_core hetb).2.1
        split at h
        · simp at h
        · next output hlast =>
          split at h
          · simp at h
          · next event hhead =>
            split at h
            · split at h
              · next hdec =>
                simp only [PResult.ok.injEq] at h
                obtain ⟨h1, -⟩ := h
                rw [← h1]
                exact hbt
              · simp at h
            · simp at h
  exact ⟨key t, rfl, fun ex1 u h => key (ex.block_time + 1) ex1 u h⟩

theorem claim_C3_amended_witness :
    (apply_write_set { ex5 with block_time := 3 } obm.write_set).block_time = 3 :=
  (claim_C3_amended vmBlock ex5 3).1
    (apply_write_set { ex5 with block_time := 3 } obm.write_set) () rfl

/-- Claim C4 counterexample: under collaborators whose engines agree on two
outputs for the one-element block, `execute_transaction` does not fail
fatally: it returns the last output — refuting the claim that more than one
output is fatal. -/
theorem claim_C4_counterexample :
    vmTwoOutputs.execute_block_seq [Transaction.userTransaction txnW] exW.data_store =
      Except.ok [oA, oB] ∧
    execute_transaction vmTwoOutputs exW txnW = PResult.ok exW oB :=
  ⟨rfl, rfl⟩

/-- Claim C4 (amended): `execute_transaction` executes its argument as a
one-element block; a VM-level failure and an empty output list are fatal,
and whenever it returns normally its result is the last output of the
block's (necessarily nonempty) output list — more than one output is not
fatal. -/
theorem claim_C4_amended (vm : VM) (ex : FakeExecutor) (txn : SignedTransaction) :
    (∀ e, vm.execute_block_seq [Transaction.userTransaction txn] ex.data_store =
        Except.error e → (execute_transaction vm ex txn).isPanic = true)
    ∧ (vm.execute_block_seq [Transaction.userTransaction txn] ex.data_store =
        Except.ok [] → (execute_transaction vm ex txn).isPanic = true)
    ∧ (∀ ex1 o, execute_transaction vm ex txn = PResult.ok ex1 o →
        ∃ l, vm.execute_block_seq [Transaction.userTransaction txn] ex.data_store =
          Except.ok l ∧ l.getLast? = some o) := by
  refine ⟨?_, ?_, ?_⟩
  · intro e he
    cases hb : execute_block vm ex [txn] with
    | panic s p => simp [execute_transaction, hb, PResult.isPanic]
    | ok ex1 r =>
      have hb' : execute_transaction_block vm ex [Transaction.userTransaction txn] =
          PResult.ok ex1 r := hb
      obtain ⟨hseq, -⟩ := etb_ok_eq hb'
      rw [he] at hseq
      subst hseq
      simp [execute_transaction, hb, PResult.isPanic]
  · intro he
    cases hb : execute_block vm ex [txn] with
    | panic s p => simp [execute_transaction, hb, PResult.isPanic]
    | ok ex1 r =>
      have hb' : execute_transaction_block vm ex [Transaction.userTransaction txn] =
          PResult.ok ex1 r := hb
      obtain ⟨hseq, -⟩ := etb_ok_eq hb'
      rw [he] at hseq
      subst hseq
      simp [execute_transaction, hb, PResult.isPanic]
  · intro ex1 o h
    cases hb : execute_block vm ex [txn] with
    | panic s p =>
      rw [execute_transaction, hb] at h
      simp at h
    | ok ex3 r =>
      have hb' : execute_transaction_block vm ex [Transaction.userTransaction txn] =
          PResult.ok ex3 r := hb
      obtain ⟨hseq, -⟩ := etb_ok_eq hb'
      rw [execute_transaction, hb] at h
      cases r with
      | error e => simp at h
      | ok outputs =>
        simp only [] at h
        split at h
        · simp at h
        · next output hlast =>
          simp only [PResult.ok.injEq] at h
          obtain ⟨-, ho⟩ := h
          exact ⟨outputs, hseq.symm, by rw [hlast, ho]⟩

theorem claim_C4_amended_witness :
    (execute_transaction vmErr exW txnW).isPanic = true :=
  (claim_C4_amended vmErr exW txnW).1 { code := 3 } rfl

/-- Claim C5 counterexample: under collaborators where the sequential and
parallel engines diverge, executing the same block through `execute_block`
fails fatally on the cross-check, yet `execute_block_and_keep_vm_status`
returns successfully — it does not run both paths or assert their equality. -/
theorem claim_C5_counterexample :
    execute_block_and_keep_vm_status vmKeepOnly exW [txnW] = Except.ok [] ∧
    vmKeepOnly.execute_block_seq [Transaction.userTransaction txnW] exW.data_store ≠
      execute_transaction_block_parallel vmKeepOnly exW
        [Transaction.userTransaction txnW] ∧
    (execute_block vmKeepOnly exW [txnW]).isPanic = true :=
  ⟨rfl, by decide, rfl⟩

/-- Claim C5 (amended): `execute_block` and `execute_transaction_block` run
both the sequential and the concurrent execution paths and assert their
equality, but `execute_block_and_keep_vm_status` invokes only the sequential
keep-vm-status engine entry and performs no cross-path comparison, returning
its result directly. -/
theorem claim_C5_amended (vm : VM) (ex : FakeExecutor)
    (txns : List SignedTransaction) :
    execute_block_and_keep_vm_status vm ex txns =
      vm.execute_block_keep_vm_status (txns.map Transaction.userTransaction)
        ex.data_store
    ∧ (vm.execute_block_seq (txns.map Transaction.userTransaction) ex.data_store ≠
        execute_transaction_block_parallel vm ex
          (txns.map Transaction.userTransaction) →
      (execute_block vm ex txns).isPanic = true) :=
  ⟨rfl, fun h => etb_mismatch_panics h⟩

theorem claim_C5_amended_witness :
    (execute_block vmKeepOnly exW [txnW]).isPanic = true :=
  (claim_C5_amended vmKeepOnly exW [txnW]).2 (by decide)

/-- Claim C6 counterexample: after one recording (file `0`), pre-creating a
file at the next sequence number `1` does not make the next recording call
fail fatally: the call counts two files and successfully writes file `2` —
refuting the claim. -/
theorem claim_C6_counterexample :
    trace { files := [(0, [7]), (1, [8])] } [9] =
      Except.ok ({ files := [(0, [7]), (1, [8]), (2, [9])] }, 2) :=
  rfl

/-- Claim C6 (amended): each trace-recording call derives its sequence
number by counting the files present, serializes the item (the bytes
argument) and writes it to a new file named by that number, failing fatally
exactly when a file named by the current file count already exists;
recording N items into an initially empty subdirectory produces exactly the
files 0 through N-1; pre-creating a file at the next sequence number does
not make the next call fail — that call counts it and records under the
number after it. -/
theorem claim_C6_amended :
    (∀ items : List Bytes,
      traceMany emptyDir items =
        Except.ok ({ files := (List.range items.length).zip items },
          List.range items.length))
    ∧ (∀ (d : Dir) (b : Bytes),
        trace d b = Except.error Panic.traceFileExists ↔
          d.hasFile d.files.length = true)
    ∧ (∀ (pre : List Bytes) (c b : Bytes),
        trace { files := (List.range pre.length).zip pre ++ [(pre.length, c)] } b =
          Except.ok
            ({ files := (List.range pre.length).zip pre ++ [(pre.length, c)]
                ++ [(pre.length + 1, b)] }, pre.length + 1)) := by
  refine ⟨?_, ?_, ?_⟩
  · intro items
    have h := traceMany_from items emptyDir rfl
    simpa [emptyDir, List.range_eq_range'] using h
  · intro d b
    cases hf : d.hasFile d.files.length with
    | true => simp [trace, hf]
    | false => simp [trace, hf]
  · intro pre c b
    have hfree :
        (Dir.mk ((List.range pre.length).zip pre ++ [(pre.length, c)])).hasFile
          (pre.length + 1) = false := by
      unfold Dir.hasFile
      cases hany : ((List.range pre.length).zip pre ++ [(pre.length, c)]).any
          (fun f => f.fst == pre.length + 1) with
      | false => rfl
      | true =>
        exfalso
        rw [List.any_eq_true] at hany
        obtain ⟨⟨x1, x2⟩, hx, hxm⟩ := hany
        have hfst : x1 = pre.length + 1 := by simpa using hxm
        rcases List.mem_append.mp hx with hleft | hright
        · have hr := (List.of_mem_zip hleft).1
          have := List.mem_range.mp hr
          omega
        · have hsing := List.mem_singleton.mp hright
          have h1 : x1 = pre.length := by
            have := congrArg Prod.fst hsing
            simpa using this
          omega
    have hlen : ((List.range pre.length).zip pre ++ [(pre.length, c)]).length
        = pre.length + 1 := by
      simp
    simp [trace, hlen, hfree]

/-- Claim C7 counterexample: with the trace subdirectory for the test
already existing under the trace root, `set_golden_file` completes normally
and recreates the directory fresh — an already-existing trace subdirectory
is not a fatal condition. -/
theorem claim_C7_counterexample :
    sanitizeName nmW ∈ [sanitizeName nmW] ∧
    (set_golden_file vmBase (some envW) [sanitizeName nmW] exW nmW).fst.trace_fs =
      some (initialTraceFS nmW 0) := by
  exact ⟨by simp, rfl⟩

/-- Claim C7 (amended): when assigning a golden-output name, tracing is
enabled if and only if the environment-level trace-root location is
configured at that moment (for a harness that had tracing off); an
already-existing trace subdirectory for the test is not fatal — it is
silently removed and the directory is recreated fresh with the name file and
the four empty subdirectories — and the sanitized test name is registered
under the trace root. -/
theorem claim_C7_amended (vm : VM) (env_trace_dir : Option String)
    (trace_root : List String) (ex : FakeExecutor) (test_name : String)
    (hfresh : ex.trace_fs = none) :
    ((set_golden_file vm env_trace_dir trace_root ex test_name).fst.trace_fs.isSome =
      env_trace_dir.isSome)
    ∧ (∀ r, env_trace_dir = some r →
        (set_golden_file vm env_trace_dir trace_root ex test_name).fst.trace_fs =
          some (initialTraceFS test_name ((vm.fetch_version ex.data_store).getD 0))
        ∧ sanitizeName test_name ∈
            (set_golden_file vm env_trace_dir trace_root ex test_name).snd)
    ∧ ((set_golden_file vm env_trace_dir trace_root ex test_name).fst.executed_output =
        some (sanitizeName test_name)) := by
  cases env_trace_dir with
  | none =>
    refine ⟨?_, ?_, ?_⟩
    · simp [set_golden_file, hfresh]
    · intro r hr
      simp at hr
    · simp [set_golden_file]
  | some r0 =>
    refine ⟨?_, ?_, ?_⟩
    · simp [set_golden_file]
    · intro r hr
      refine ⟨by simp [set_golden_file], ?_⟩
      simp [set_golden_file]
    · simp [set_golden_file]

theorem claim_C7_amended_witness :
    ((set_golden_file vmBase (some envW) [sanitizeName nmW] exW nmW).fst.trace_fs =
      some (initialTraceFS nmW ((vmBase.fetch_version exW.data_store).getD 0))
    ∧ sanitizeName nmW ∈
        (set_golden_file vmBase (some envW) [sanitizeName nmW] exW nmW).snd)
    ∧ ((set_golden_file vmBase (some envW) [sanitizeName nmW] exW nmW).fst.trace_fs.isSome
        = (some envW).isSome) :=
  ⟨(claim_C7_amended vmBase (some envW) [sanitizeName nmW] exW nmW rfl).2.1 envW rfl,
   (claim_C7_amended vmBase (some envW) [sanitizeName nmW] exW nmW rfl).1⟩

/-- Claim C8: for every input block, `execute_transaction_block` and
`execute_block` leave the ledger state and the block time unchanged — in
every outcome, including a fatal abort, the harness state carries the same
data store and block time as before the call; mutations happen only when a
caller explicitly applies an output's write set afterwards. -/
theorem claim_C8_frame (vm : VM) (ex : FakeExecutor) (txns : List Transaction)
    (stxns : List SignedTransaction) :
    ((execute_transaction_block vm ex txns).state.data_store = ex.data_store
      ∧ (execute_transaction_block vm ex txns).state.block_time = ex.block_time)
    ∧ ((execute_block vm ex stxns).state.data_store = ex.data_store
      ∧ (execute_block vm ex stxns).state.block_time = ex.block_time) := by
  have h1 := etb_core vm ex txns
  have h2 := etb_core vm ex (stxns.map Transaction.userTransaction)
  exact ⟨⟨h1.1, h1.2.1⟩, ⟨h2.1, h2.2.1⟩⟩

/-- Claim C9: reading a ledger slot that has never been written yields a
"not found" result distinct from found-but-empty: `read_from_access_path`
returns `none` for such a slot, while the typed resource reads
(`read_resource` and the account/balance wrappers) treat the missing slot as
a fatal harness-usage error rather than returning a value. -/
theorem claim_C9_not_found {α : Type} (ex : FakeExecutor) (addr : AccountAddress)
    (tag : Nat) (decode : Bytes → Option α)
    (h : ex.data_store (StateKey.accessPath (resource_access_path addr tag)) = none) :
    read_from_access_path ex (resource_access_path addr tag) = none
    ∧ read_resource ex tag decode addr = Except.error Panic.resourceNotFound
    ∧ (ex.data_store
          (StateKey.accessPath (resource_access_path addr accountResourceTag)) = none →
        read_account_resource_at_address ex addr = Except.error Panic.resourceNotFound)
    ∧ (ex.data_store
          (StateKey.accessPath (resource_access_path addr balanceResourceTag)) = none →
        read_balance_resource_at_address ex addr = Except.error Panic.resourceNotFound) := by
  refine ⟨?_, ?_, ?_, ?_⟩
  · simpa [read_from_access_path, get_state_value] using h
  · simp [read_resource, get_state_value, h]
  · intro h2
    simp [read_account_resource_at_address, read_resource, get_state_value, h2]
  · intro h2
    simp [read_balance_resource_at_address, read_resource, get_state_value, h2]

theorem claim_C9_not_found_witness :
    read_from_access_path exW (resource_access_path addr0 3) = none ∧
    read_resource exW 3 decodeAccountResource addr0 =
      Except.error Panic.resourceNotFound ∧
    read_account_resource_at_address exW addr0 =
      Except.error Panic.resourceNotFound ∧
    read_balance_resource_at_address exW addr0 =
      Except.error Panic.resourceNotFound :=
  match claim_C9_not_found exW addr0 3 decodeAccountResource rfl with
  | ⟨h1, h2, h3, h4⟩ => ⟨h1, h2, h3 rfl, h4 rfl⟩

/-- Claim C10: account generation is deterministic across harness
instances — every constructor seeds the key generator from the fixed
constant seed, so for any two executors (regardless of genesis mode) the
accounts produced by `create_raw_account` (iterated), `create_accounts` and
`create_raw_account_data` coincide between the two instances. -/
theorem claim_C10_determinism (m1 m2 : GenesisMode) (n balance seq_num : Nat) :
    (create_raw_accounts (construct m1) n).fst =
      (create_raw_accounts (construct m2) n).fst
    ∧ (create_accounts (construct m1) n balance seq_num).fst =
        (create_accounts (construct m2) n balance seq_num).fst
    ∧ (create_raw_account (construct m1)).fst = (create_raw_account (construct m2)).fst
    ∧ (create_raw_account_data (construct m1) balance seq_num).fst =
        (create_raw_account_data (construct m2) balance seq_num).fst := by
  have h1 := construct_rng m1
  have h2 := construct_rng m2
  refine ⟨?_, ?_, ?_, ?_⟩
  · rw [create_raw_accounts_pure, create_raw_accounts_pure, h1, h2]
  · rw [create_accounts_pure, create_accounts_pure, h1, h2]
  · simp only [create_raw_account, Account.new_from_seed, h1, h2]
  · simp only [create_raw_account_data, AccountData.new_from_seed,
      Account.new_from_seed, h1, h2]

end Executor
